import Mathlib

/-!
Verification of the result-reporting emitters of the repository:
`robot/reporting/monitorlogwriter.py`, `robot/reporting/azurelogwriter.py`
and `robot/rebot.py`, shallowly embedded in Lean 4.

Pure Python methods become Lean functions; the one piece of visitor state
(`AzureLogWriterVisitor.testcases`) is threaded explicitly.  Each visitor
hook returns the visited node as its first component: the Python methods
receive the node object and could mutate it, so the returned node is the
embedding of "the node after the hook ran".  Machine integers are `Nat`
with explicit `% 2 ^ 32` where 32-bit overflow matters (SHA-256).
-/

/-- Test status.  In the source a test's `failed` / `skipped` are booleans
derived from a single status value. -/
inductive Status where
  | passed
  | failed
  | skipped
deriving DecidableEq, BEq, Repr

/-- Modelled from the spec: a Keyword of the result tree (robot.model, not in
the repository slice): name, status, recursive child keywords. -/
inductive Keyword where
  | mk (name : String) (status : Status) (children : List Keyword)
deriving Repr

/-- Modelled from the spec: a Test of the result tree (robot.model, not in the
repository slice): name, long name of the parent suite (the non-owning
back-reference `test.parent.longname`), status, message, elapsed time in
milliseconds, keywords. -/
structure TestCase where
  name : String
  parent_longname : String
  status : Status
  message : String
  elapsedtime : Nat
  keywords : List Keyword
deriving Repr

/-- `test.failed` of the source's result model. -/
def TestCase.failed (t : TestCase) : Bool :=
  t.status == Status.failed

/-- `test.skipped` of the source's result model. -/
def TestCase.skipped (t : TestCase) : Bool :=
  t.status == Status.skipped

/-- Modelled from the spec: a Suite of the result tree (robot.model, not in
the repository slice): name, ordered child suites and tests, start timestamp
(compact fixed-width string or absent), elapsed time in milliseconds. -/
inductive Suite where
  | mk (name : String) (suites : List Suite) (tests : List TestCase)
       (starttime : Option String) (elapsedtime : Nat)
deriving Repr

def Suite.name : Suite → String
  | .mk n _ _ _ _ => n

def Suite.suites : Suite → List Suite
  | .mk _ s _ _ _ => s

def Suite.tests : Suite → List TestCase
  | .mk _ _ t _ _ => t

def Suite.starttime : Suite → Option String
  | .mk _ _ _ st _ => st

def Suite.elapsedtime : Suite → Nat
  | .mk _ _ _ _ et => et

mutual

/-- Modelled from the spec: the set of Tests currently present in a suite's
subtree (the Tests a suite's live Statistics are derived from). -/
def Suite.allTests : Suite → List TestCase
  | .mk _ suites tests _ _ => tests ++ allTestsList suites

def allTestsList : List Suite → List TestCase
  | [] => []
  | s :: rest => Suite.allTests s ++ allTestsList rest

end

/-- Modelled from the spec: the live Statistics of a suite, "derived from the
current (possibly filtered) tree — must always equal the sum over the exact
set of Tests currently present in the tree". -/
structure Statistics where
  total : Nat
  passed : Nat
  failed : Nat
  skipped : Nat
deriving DecidableEq, Repr

/-- `suite.statistics`: counts derived live from the Tests of the subtree. -/
def Suite.statistics (s : Suite) : Statistics :=
  { total := s.allTests.length
    passed := (s.allTests.filter (·.status == Status.passed)).length
    failed := (s.allTests.filter (·.status == Status.failed)).length
    skipped := (s.allTests.filter (·.status == Status.skipped)).length }

/-- Python string slicing `s[a:b]` (with the usual clamping). -/
def pySlice (s : String) (a b : Nat) : String :=
  String.mk ((s.data.drop a).take (b - a))

/-- Zero-pad a number below 1000 to three digits, as the fractional part of
Python's `'{:.3f}'.format`. -/
def zpad3 (n : Nat) : String :=
  if n < 10 then "00" ++ toString n
  else if n < 100 then "0" ++ toString n
  else toString n

namespace MonitorLogWriterWorker

/-- `MonitorLogWriterWorker._time_as_seconds`: `'{:.3f}'.format(millis / 1000)`.
For a non-negative integer number of milliseconds Python's float formatting
renders the exact decimal `millis / 1000` to three places, which is what this
embedding computes directly. -/
def time_as_seconds (millis : Nat) : String :=
  toString (millis / 1000) ++ "." ++ zpad3 (millis % 1000)

/-- `MonitorLogWriterWorker._starttime_to_isoformat`.  Python's `not stime`
is true for both `None` and the empty string; the slice offsets are the
source's literal ones, including skipping index 8 and truncating at 22. -/
def starttime_to_isoformat (stime : Option String) : Option String :=
  match stime with
  | none => none
  | some s =>
    if s = "" then none
    else some (pySlice s 0 4 ++ "-" ++ pySlice s 4 6 ++ "-" ++ pySlice s 6 8
               ++ "T" ++ pySlice s 9 22 ++ "000")

/-- The suite attributes dict logged by `start_suite` (all stats fields pass
through `str`). -/
structure SuiteRecord where
  name : String
  tests : String
  errors : String
  failures : String
  skipped : String
  time : String
  timestamp : Option String
deriving DecidableEq, Repr

/-- `MonitorLogWriterWorker._get_stats` (note the `str(...)` conversions). -/
def get_stats (statistics : Statistics) : String × String × String :=
  (toString statistics.total, toString statistics.failed, toString statistics.skipped)

/-- `MonitorLogWriterWorker.start_suite`: builds and logs the suite record;
the suite object itself is returned untouched (the method only reads it). -/
def start_suite (suite : Suite) : Suite × SuiteRecord :=
  let (tests, failures, skipped) := get_stats suite.statistics
  (suite,
   { name := suite.name
     tests := tests
     errors := "0"
     failures := failures
     skipped := skipped
     time := time_as_seconds suite.elapsedtime
     timestamp := starttime_to_isoformat suite.starttime })

/-- `MonitorLogWriterWorker.end_suite`: `pass`. -/
def end_suite (suite : Suite) : Suite :=
  suite

/-- The testcase record logged by `visit_test`. -/
structure TestRecord where
  classname : String
  name : String
  time : String
deriving DecidableEq, Repr

/-- A `failure` / `skipped` sub-record `{message, type}`. -/
structure SubRecord where
  message : String
  type : String
deriving DecidableEq, Repr

/-- Everything `visit_test` logs for one test. -/
structure TestOutput where
  record : TestRecord
  failure : Option SubRecord
  skipped : Option SubRecord
deriving DecidableEq, Repr

/-- `MonitorLogWriterWorker.visit_test`: logs the testcase record, then a
failure sub-record when `test.failed`, then a skipped sub-record when
`test.skipped`; the test object is returned untouched. -/
def visit_test (test : TestCase) : TestCase × TestOutput :=
  (test,
   { record := { classname := test.parent_longname
                 name := test.name
                 time := time_as_seconds test.elapsedtime }
     failure := if test.failed then
                  some { message := test.message, type := "AssertionError" }
                else none
     skipped := if test.skipped then
                  some { message := test.message, type := "SkipExecution" }
                else none })

/-- `MonitorLogWriterWorker.visit_keyword`: `pass`. -/
def visit_keyword (kw : Keyword) : Keyword :=
  kw

/-- One log entry emitted during the monitor pass. -/
inductive Entry where
  | suiteEntry (r : SuiteRecord)
  | testEntry (o : TestOutput)
deriving DecidableEq, Repr

/-- Visit the tests of a suite in stored order. -/
def visitTestList : List TestCase → List TestCase × List Entry
  | [] => ([], [])
  | t :: rest =>
    let r := visit_test t
    let rs := visitTestList rest
    (r.1 :: rs.1, Entry.testEntry r.2 :: rs.2)

mutual

/-- Modelled from the spec: the visitor dispatch of `ResultVisitor` (not in
the repository slice) — `start_suite` fires before descending, child suites
then tests are visited in stored order, `end_suite` fires after all children.
The hooks' returned nodes are reassembled into the post-pass tree. -/
def visitSuite : Suite → Suite × List Entry
  | .mk name suites tests starttime elapsedtime =>
    let r0 := start_suite (.mk name suites tests starttime elapsedtime)
    let r1 := visitSuiteList suites
    let r2 := visitTestList tests
    let s' := end_suite (.mk r0.1.name r1.1 r2.1 r0.1.starttime r0.1.elapsedtime)
    (s', Entry.suiteEntry r0.2 :: (r1.2 ++ r2.2))

def visitSuiteList : List Suite → List Suite × List Entry
  | [] => ([], [])
  | s :: rest =>
    let r := visitSuite s
    let rs := visitSuiteList rest
    (r.1 :: rs.1, r.2 ++ rs.2)

end

end MonitorLogWriterWorker

namespace AzureLogWriterVisitor

/-- `AzureLogWriterVisitor._time_as_seconds` (identical to the monitor
emitter's helper). -/
def time_as_seconds (millis : Nat) : String :=
  toString (millis / 1000) ++ "." ++ zpad3 (millis % 1000)

/-- `AzureLogWriterVisitor._starttime_to_isoformat` (identical to the monitor
emitter's helper). -/
def starttime_to_isoformat (stime : Option String) : Option String :=
  match stime with
  | none => none
  | some s =>
    if s = "" then none
    else some (pySlice s 0 4 ++ "-" ++ pySlice s 4 6 ++ "-" ++ pySlice s 6 8
               ++ "T" ++ pySlice s 9 22 ++ "000")

/-- The testcase dict buffered by `visit_test` into `self.testcases`. -/
structure TestRecord where
  classname : String
  name : String
  time : String
  message : String
deriving DecidableEq, Repr

/-- The suite attributes dict built by `end_suite` (stats stay integers here,
unlike the monitor emitter's `str(...)`). -/
structure SuiteRecord where
  name : String
  tests : Nat
  failures : Nat
  skipped : Nat
  time : String
  timestamp : Option String
  testcases : List TestRecord
deriving DecidableEq, Repr

/-- The JSON body of one POST: `json.dumps([attrs])`, a single-element array
around the suite record. -/
abbrev Payload := List SuiteRecord

/-- `AzureLogWriterVisitor._get_stats` (no `str` conversion here). -/
def get_stats (statistics : Statistics) : Nat × Nat × Nat :=
  (statistics.total, statistics.failed, statistics.skipped)

/-- `AzureLogWriterVisitor.start_suite`: `pass`. -/
def start_suite (suite : Suite) : Suite :=
  suite

/-- `AzureLogWriterVisitor.visit_test`.  The visitor state is the
`self.testcases` buffer.  The local `message` with its `": AssertionError"` /
`": SkipExecution"` suffix is computed exactly as in the source and then,
exactly as in the source, never used: the buffered record carries the raw
`test.message`. -/
def visit_test (testcases : List TestRecord) (test : TestCase) :
    TestCase × List TestRecord × TestRecord :=
  let message := test.message
  let message := if test.failed then message ++ ": AssertionError"
                 else if test.skipped then message ++ ": SkipExecution"
                 else message
  let testcase : TestRecord :=
    { classname := test.parent_longname
      name := test.name
      time := time_as_seconds test.elapsedtime
      message := test.message }
  (test, testcases ++ [testcase], testcase)

/-- `AzureLogWriterVisitor.end_suite`: builds the suite attributes dict with
the current `self.testcases` buffer, logs it, and posts `json.dumps([attrs])`
— a single-element array.  The buffer is returned unchanged: the source never
clears `self.testcases`. -/
def end_suite (testcases : List TestRecord) (suite : Suite) :
    Suite × List TestRecord × SuiteRecord × Payload :=
  let (tests, failures, skipped) := get_stats suite.statistics
  let attrs : SuiteRecord :=
    { name := suite.name
      tests := tests
      failures := failures
      skipped := skipped
      time := time_as_seconds suite.elapsedtime
      timestamp := starttime_to_isoformat suite.starttime
      testcases := testcases }
  (suite, testcases, attrs, [attrs])

/-- `AzureLogWriterVisitor.visit_keyword`: `pass`. -/
def visit_keyword (kw : Keyword) : Keyword :=
  kw

/-- Visit the tests of a suite in stored order, threading the buffer. -/
def visitTestList (testcases : List TestRecord) :
    List TestCase → List TestCase × List TestRecord
  | [] => ([], testcases)
  | t :: rest =>
    let r := visit_test testcases t
    let rs := visitTestList r.2.1 rest
    (r.1 :: rs.1, rs.2)

mutual

/-- Modelled from the spec: the visitor dispatch of `ResultVisitor` (not in
the repository slice) for the ingestion emitter — `start_suite` (a no-op
here) fires before descending, child suites then tests are visited in stored
order, `end_suite` fires after all children and emits exactly one POST
payload.  Returns the reassembled tree, the final buffer, and the payloads
in emission order. -/
def visitSuite (testcases : List TestRecord) :
    Suite → Suite × List TestRecord × List Payload
  | .mk name suites tests starttime elapsedtime =>
    let s0 := start_suite (.mk name suites tests starttime elapsedtime)
    let r1 := visitSuiteList testcases suites
    let r2 := visitTestList r1.2.1 tests
    let r3 := end_suite r2.2 (.mk s0.name r1.1 r2.1 s0.starttime s0.elapsedtime)
    (r3.1, r3.2.1, r1.2.2 ++ [r3.2.2.2])

def visitSuiteList (testcases : List TestRecord) :
    List Suite → List Suite × List TestRecord × List Payload
  | [] => ([], testcases, [])
  | s :: rest =>
    let r := visitSuite testcases s
    let rs := visitSuiteList r.2.1 rest
    (r.1 :: rs.1, rs.2.1, r.2.2 ++ rs.2.2)

end

/-- The record `visit_test` buffers for a test (used to state what the
buffer holds). -/
def testRecordOf (t : TestCase) : TestRecord :=
  { classname := t.parent_longname
    name := t.name
    time := time_as_seconds t.elapsedtime
    message := t.message }

end AzureLogWriterVisitor

mutual

/-- The tests of a suite's subtree in traversal order: child suites first
(in stored order), then the suite's own tests. -/
def traversalTests : Suite → List TestCase
  | .mk _ suites tests _ _ => traversalTestsList suites ++ tests

def traversalTestsList : List Suite → List TestCase
  | [] => []
  | s :: rest => traversalTests s ++ traversalTestsList rest

end

mutual

/-- Number of suites in a suite's subtree (itself included). -/
def countSuites : Suite → Nat
  | .mk _ suites _ _ _ => 1 + countSuitesList suites

def countSuitesList : List Suite → Nat
  | [] => 0
  | s :: rest => countSuites s + countSuitesList rest

end

/-! ### SHA-256, HMAC and base64

Executable models of Python's `hashlib.sha256`, `hmac.new(..).digest()` and
`base64.b64encode` / `b64decode`, operating on byte lists (`Nat` values below
256) with 32-bit words as `Nat` reduced `% 2 ^ 32`. -/

namespace Crypto

/-- 32-bit truncating addition. -/
def add32 (a b : Nat) : Nat :=
  (a + b) % 4294967296

/-- Right rotation of a 32-bit word. -/
def rotr32 (n a : Nat) : Nat :=
  ((a >>> n) ||| (a <<< (32 - n))) % 4294967296

/-- 32-bit bitwise complement. -/
def not32 (a : Nat) : Nat :=
  a ^^^ 4294967295

def bigSigma0 (x : Nat) : Nat := rotr32 2 x ^^^ rotr32 13 x ^^^ rotr32 22 x
def bigSigma1 (x : Nat) : Nat := rotr32 6 x ^^^ rotr32 11 x ^^^ rotr32 25 x
def smallSigma0 (x : Nat) : Nat := rotr32 7 x ^^^ rotr32 18 x ^^^ (x >>> 3)
def smallSigma1 (x : Nat) : Nat := rotr32 17 x ^^^ rotr32 19 x ^^^ (x >>> 10)

/-- The SHA-256 round constants (FIPS 180-4, here in decimal). -/
def K : List Nat :=
  [1116352408, 1899447441, 3049323471, 3921009573, 961987163,
   1508970993, 2453635748, 2870763221, 3624381080, 310598401,
   607225278, 1426881987, 1925078388, 2162078206, 2614888103,
   3248222580, 3835390401, 4022224774, 264347078, 604807628,
   770255983, 1249150122, 1555081692, 1996064986, 2554220882,
   2821834349, 2952996808, 3210313671, 3336571891, 3584528711,
   113926993, 338241895, 666307205, 773529912, 1294757372,
   1396182291, 1695183700, 1986661051, 2177026350, 2456956037,
   2730485921, 2820302411, 3259730800, 3345764771, 3516065817,
   3600352804, 4094571909, 275423344, 430227734, 506948616,
   659060556, 883997877, 958139571, 1322822218, 1537002063,
   1747873779, 1955562222, 2024104815, 2227730452, 2361852424,
   2428436474, 2756734187, 3204031479, 3329325298]

/-- The SHA-256 initial hash state (in decimal). -/
def H0 : List Nat :=
  [1779033703, 3144134277, 1013904242, 2773480762,
   1359893119, 2600822924, 528734635, 1541459225]

/-- Big-endian bytes of a 64-bit value. -/
def be64 (n : Nat) : List Nat :=
  [(n >>> 56) % 256, (n >>> 48) % 256, (n >>> 40) % 256, (n >>> 32) % 256,
   (n >>> 24) % 256, (n >>> 16) % 256, (n >>> 8) % 256, n % 256]

/-- SHA-256 padding: append `0x80`, zeros to 56 mod 64, then the bit length
as a 64-bit big-endian value. -/
def pad (msg : List Nat) : List Nat :=
  let L := msg.length
  let k := (56 + 64 - ((L + 1) % 64)) % 64
  msg ++ [0x80] ++ List.replicate k 0 ++ be64 (L * 8)

/-- Group big-endian bytes into 32-bit words. -/
def toWords : List Nat → List Nat
  | a :: b :: c :: d :: rest =>
    ((a <<< 24) ||| (b <<< 16) ||| (c <<< 8) ||| d) :: toWords rest
  | _ => []

/-- Split a word list into 16-word blocks (structurally, so that it reduces
inside the kernel). -/
def toBlocks : List Nat → List (List Nat)
  | w0 :: w1 :: w2 :: w3 :: w4 :: w5 :: w6 :: w7 ::
    w8 :: w9 :: w10 :: w11 :: w12 :: w13 :: w14 :: w15 :: rest =>
    [w0, w1, w2, w3, w4, w5, w6, w7, w8, w9, w10, w11, w12, w13, w14, w15]
      :: toBlocks rest
  | _ => []

/-- One message-schedule extension step: append
`σ₁ w[i-2] + w[i-7] + σ₀ w[i-15] + w[i-16]`. -/
def extendStep (ws : List Nat) : List Nat :=
  let i := ws.length
  ws ++ [add32 (add32 (smallSigma1 (ws.getD (i - 2) 0)) (ws.getD (i - 7) 0))
               (add32 (smallSigma0 (ws.getD (i - 15) 0)) (ws.getD (i - 16) 0))]

/-- Iterate the schedule extension. -/
def extendW : Nat → List Nat → List Nat
  | 0, ws => ws
  | n + 1, ws => extendStep (extendW n ws)

/-- The 64-entry message schedule of one block. -/
def schedule (block : List Nat) : List Nat :=
  extendW 48 block

/-- One SHA-256 compression round on the 8-word working state. -/
def round (st : List Nat) (k w : Nat) : List Nat :=
  match st with
  | [a, b, c, d, e, f, g, h] =>
    let s1 := bigSigma1 e
    let ch := (e &&& f) ^^^ (not32 e &&& g)
    let t1 := add32 h (add32 s1 (add32 ch (add32 k w)))
    let s0 := bigSigma0 a
    let maj := (a &&& b) ^^^ (a &&& c) ^^^ (b &&& c)
    let t2 := add32 s0 maj
    [add32 t1 t2, a, b, c, add32 d t1, e, f, g]
  | _ => st

/-- Run the 64 rounds of one block over the working state. -/
def rounds : List Nat → List Nat → List Nat → List Nat
  | st, k :: ks, w :: ws => rounds (round st k w) ks ws
  | st, _, _ => st

/-- Compress one 16-word block into the hash state. -/
def compress (hs block : List Nat) : List Nat :=
  let st := rounds hs K (schedule block)
  List.zipWith add32 hs st

/-- Fold the compression over all blocks. -/
def compressAll (hs : List Nat) : List (List Nat) → List Nat
  | [] => hs
  | b :: rest => compressAll (compress hs b) rest

/-- Big-endian bytes of a 32-bit word. -/
def wordBytes (w : Nat) : List Nat :=
  [(w >>> 24) % 256, (w >>> 16) % 256, (w >>> 8) % 256, w % 256]

/-- SHA-256 of a byte list, as its 32-byte digest. -/
def sha256 (msg : List Nat) : List Nat :=
  (compressAll H0 (toBlocks (toWords (pad msg)))).map wordBytes |>.flatten

/-- HMAC-SHA256 (`hmac.new(key, msg, digestmod=hashlib.sha256).digest()`). -/
def hmacSha256 (key msg : List Nat) : List Nat :=
  let k0 := if 64 < key.length then sha256 key else key
  let kp := k0 ++ List.replicate (64 - k0.length) 0
  let ipad := kp.map (· ^^^ 0x36)
  let opad := kp.map (· ^^^ 0x5c)
  sha256 (opad ++ sha256 (ipad ++ msg))

/-- The base64 alphabet. -/
def b64Alphabet : List Char :=
  "ABCDEFGHIJKLMNOPQRSTUVWXYZabcdefghijklmnopqrstuvwxyz0123456789+/".data

/-- Character for a 6-bit group. -/
def b64Char (n : Nat) : Char :=
  b64Alphabet.getD n 'A'

/-- Base64-encode a byte list (`base64.b64encode`), with `=` padding. -/
def b64Encode : List Nat → List Char
  | a :: b :: c :: rest =>
    let n := (a <<< 16) ||| (b <<< 8) ||| c
    b64Char (n >>> 18) :: b64Char ((n >>> 12) &&& 63) ::
      b64Char ((n >>> 6) &&& 63) :: b64Char (n &&& 63) :: b64Encode rest
  | [a, b] =>
    let n := (a <<< 16) ||| (b <<< 8)
    [b64Char (n >>> 18), b64Char ((n >>> 12) &&& 63), b64Char ((n >>> 6) &&& 63), '=']
  | [a] =>
    let n := a <<< 16
    [b64Char (n >>> 18), b64Char ((n >>> 12) &&& 63), '=', '=']
  | [] => []

/-- 6-bit value of a base64 character. -/
def b64Val (c : Char) : Nat :=
  (b64Alphabet.indexOf c)

/-- Decode base64 data with the `=` padding already stripped. -/
def b64DecodeCore : List Char → List Nat
  | a :: b :: c :: d :: rest =>
    let n := (b64Val a <<< 18) ||| (b64Val b <<< 12) ||| (b64Val c <<< 6) ||| b64Val d
    (n >>> 16) % 256 :: (n >>> 8) % 256 :: n % 256 :: b64DecodeCore rest
  | [a, b, c] =>
    let n := (b64Val a <<< 18) ||| (b64Val b <<< 12) ||| (b64Val c <<< 6)
    [(n >>> 16) % 256, (n >>> 8) % 256]
  | [a, b] =>
    let n := (b64Val a <<< 18) ||| (b64Val b <<< 12)
    [(n >>> 16) % 256]
  | _ => []

/-- Base64-decode a string (`base64.b64decode`). -/
def b64Decode (s : String) : List Nat :=
  b64DecodeCore (s.data.filter (· ≠ '='))

/-- UTF-8 bytes of one character. -/
def utf8Char (c : Char) : List Nat :=
  let n := c.toNat
  if n < 0x80 then [n]
  else if n < 0x800 then
    [0xC0 ||| (n >>> 6), 0x80 ||| (n &&& 0x3F)]
  else if n < 0x10000 then
    [0xE0 ||| (n >>> 12), 0x80 ||| ((n >>> 6) &&& 0x3F), 0x80 ||| (n &&& 0x3F)]
  else
    [0xF0 ||| (n >>> 18), 0x80 ||| ((n >>> 12) &&& 0x3F),
     0x80 ||| ((n >>> 6) &&& 0x3F), 0x80 ||| (n &&& 0x3F)]

/-- UTF-8 bytes of a string (`bytes(s, encoding="utf-8")`). -/
def utf8Encode (s : String) : List Nat :=
  (s.data.map utf8Char).flatten

end Crypto

namespace AzureLogPublisher

/-- The identity/credential fields of `AzureLogPublisher.__init__`. -/
structure Publisher where
  customer_id : String
  shared_key : String
  log_type : String
deriving Repr

/-- `AzureLogPublisher.build_signature`: HMAC-SHA256 over the canonical
string `METHOD\nCONTENT-LENGTH\nCONTENT-TYPE\nx-ms-date:DATE\nRESOURCE`,
keyed by the base64-decoded shared key; the digest is base64-encoded into
`SharedKey <customer_id>:<signature>`. -/
def build_signature (p : Publisher) (date : String) (content_length : Nat)
    (method content_type resource : String) : String :=
  let x_headers := "x-ms-date:" ++ date
  let string_to_hash := method ++ "\n" ++ toString content_length ++ "\n"
                        ++ content_type ++ "\n" ++ x_headers ++ "\n" ++ resource
  let bytes_to_hash := Crypto.utf8Encode string_to_hash
  let decoded_key := Crypto.b64Decode p.shared_key
  let encoded_hash :=
    String.mk (Crypto.b64Encode (Crypto.hmacSha256 decoded_key bytes_to_hash))
  "SharedKey " ++ p.customer_id ++ ":" ++ encoded_hash

/-- An HTTP response as `requests` hands it back (`requests.post` does not
raise on non-2xx statuses). -/
structure HttpResponse where
  status_code : Nat
  reason : String
  text : String
deriving DecidableEq, Repr

/-- What `requests.post` did: returned a response, or raised a transport
exception (connection error, timeout, ...). -/
inductive TransportOutcome where
  | response (r : HttpResponse)
  | raised (exc : String)
deriving DecidableEq, Repr

/-- A line written to the logger, with its level. -/
inductive LogLine where
  | info (msg : String)
  | error (msg : String)
deriving DecidableEq, Repr

/-- The response handling of `AzureLogPublisher.post_data`: a 2xx status is
logged `Accepted` at info level, any other status is logged at error level
with status code, reason and body.  `requests.post` itself is outside the
repository: its outcome is an input.  There is no `try`/`except` around the
call, so a raised transport exception propagates out of `post_data`
(`Except.error`). -/
def post_data (outcome : TransportOutcome) : Except String LogLine :=
  match outcome with
  | .raised exc => .error exc
  | .response r =>
    if 200 ≤ r.status_code ∧ r.status_code ≤ 299 then
      .ok (.info "Accepted")
    else
      .ok (.error ("Response code: " ++ toString r.status_code ++ " "
                   ++ r.reason ++ " " ++ r.text))

/-- One `post_data` call per buffered payload, in traversal order, exactly as
the synchronous traversal performs them: the `i`-th call sees the transport
outcome `outcomes i`; an exception propagating from one call aborts the rest
of the pass. -/
def post_all (outcomes : Nat → TransportOutcome) :
    Nat → List AzureLogWriterVisitor.Payload → Except String (List LogLine)
  | _, [] => .ok []
  | i, _ :: rest =>
    match post_data (outcomes i) with
    | .error exc => .error exc
    | .ok line =>
      match post_all outcomes (i + 1) rest with
      | .error exc => .error exc
      | .ok lines => .ok (line :: lines)

end AzureLogPublisher

namespace Rebot

/-- The error raised by `Rebot.main` via `raise DataError('No outputs
created.')`. -/
inductive DataError where
  | mk (message : String)
deriving DecidableEq, Repr

/-- `Rebot.main` after settings/logging setup: `ResultWriter(...).write_results`
is outside the repository slice, so its return code is the input.  The source
raises `DataError('No outputs created.')` exactly when the return code is
negative and otherwise returns it. -/
def main (rc : Int) : Except DataError Int :=
  if rc < 0 then .error (.mk "No outputs created.")
  else .ok rc

end Rebot

/-! ### Concrete inputs used by witnesses and counterexamples -/

/-- The suite record `end_suite` attaches a given buffer to. -/
def AzureLogWriterVisitor.endRecord (s : Suite) (buf : List AzureLogWriterVisitor.TestRecord) :
    AzureLogWriterVisitor.SuiteRecord :=
  (AzureLogWriterVisitor.end_suite buf s).2.2.1

/-- A passed test belonging to suite `A`. -/
def exTestA : TestCase :=
  { name := "t1", parent_longname := "Root.A", status := Status.passed
    message := "", elapsedtime := 10, keywords := [] }

/-- A failed test belonging to suite `B`. -/
def exTestB : TestCase :=
  { name := "t2", parent_longname := "Root.B", status := Status.failed
    message := "boom", elapsedtime := 20, keywords := [] }

/-- A skipped test. -/
def exTestC : TestCase :=
  { name := "t3", parent_longname := "Root.A", status := Status.skipped
    message := "skip reason", elapsedtime := 0, keywords := [Keyword.mk "k" Status.passed []] }

/-- Suite `A` with a single passed test. -/
def exSuiteA : Suite :=
  Suite.mk "A" [] [exTestA] (some "20240102 03:04:05.123") 10

/-- Suite `B` with a single failed test. -/
def exSuiteB : Suite :=
  Suite.mk "B" [] [exTestB] none 20

/-- A root suite whose children are suites `A` and `B`. -/
def exRoot : Suite :=
  Suite.mk "Root" [exSuiteA, exSuiteB] [] none 30

/-- The fixed credentials of the §8 signature-determinism scenario (the key
decodes to the 32 bytes `0123456789abcdef0123456789abcdef`). -/
def refPublisher : AzureLogPublisher.Publisher :=
  { customer_id := "test-customer"
    shared_key := "MDEyMzQ1Njc4OWFiY2RlZjAxMjM0NTY3ODlhYmNkZWY="
    log_type := "RobotResults" }

/-- An HTTP 500 response. -/
def resp500 : AzureLogPublisher.HttpResponse :=
  { status_code := 500, reason := "Internal Server Error", text := "boom" }

/-- An HTTP 200 response. -/
def resp200 : AzureLogPublisher.HttpResponse :=
  { status_code := 200, reason := "OK", text := "" }

set_option maxRecDepth 100000

/-! ### C2: the compact timestamp conversion -/

/-- C2 — counterexample: on the all-digit input `"20240102030405123"` both
helpers return `"2024-01-02T30405123000"`, not the claimed
`"2024-01-02T03:04:05.123000"`: the fixed slice `stime[9:22]` skips index 8,
which in the format the source actually receives holds a space, but in an
all-digit string holds a digit. -/
theorem starttime_digit_input_counterexample :
    AzureLogWriterVisitor.starttime_to_isoformat (some "20240102030405123")
        = some "2024-01-02T30405123000" ∧
    MonitorLogWriterWorker.starttime_to_isoformat (some "20240102030405123")
        = some "2024-01-02T30405123000" ∧
    AzureLogWriterVisitor.starttime_to_isoformat (some "20240102030405123")
        ≠ some "2024-01-02T03:04:05.123000" ∧
    MonitorLogWriterWorker.starttime_to_isoformat (some "20240102030405123")
        ≠ some "2024-01-02T03:04:05.123000" := by
  refine ⟨by decide, by decide, by decide, by decide⟩

/-- C2 — amended: the shared helper `_starttime_to_isoformat` converts the
source's actual compact fixed-width timestamp `"20240102 03:04:05.123"`
(separator at index 8) to exactly `"2024-01-02T03:04:05.123000"` by
fixed-offset slicing with a literal `"000"` suffix; it truncates at character
offset 22 regardless of extra input length; and on the all-digit 17-character
input it returns `"2024-01-02T30405123000"`. -/
theorem starttime_fixed_offset_conversion :
    AzureLogWriterVisitor.starttime_to_isoformat (some "20240102 03:04:05.123")
        = some "2024-01-02T03:04:05.123000" ∧
    MonitorLogWriterWorker.starttime_to_isoformat (some "20240102 03:04:05.123")
        = some "2024-01-02T03:04:05.123000" ∧
    AzureLogWriterVisitor.starttime_to_isoformat (some "20240102 03:04:05.123456")
        = some "2024-01-02T03:04:05.1234000" ∧
    MonitorLogWriterWorker.starttime_to_isoformat (some "20240102 03:04:05.123456")
        = some "2024-01-02T03:04:05.1234000" ∧
    AzureLogWriterVisitor.starttime_to_isoformat (some "20240102030405123")
        = some "2024-01-02T30405123000" := by
  refine ⟨by decide, by decide, by decide, by decide, by decide⟩

/-! ### C9: absent timestamps stay absent -/

/-- C9: an absent start timestamp (`None` or the empty string, both falsy in
the source's `if not stime`) maps to `None` in both emitters' helpers — never
a fabricated value. -/
theorem starttime_absent_maps_to_none (stime : Option String)
    (h : stime = none ∨ stime = some "") :
    MonitorLogWriterWorker.starttime_to_isoformat stime = none ∧
    AzureLogWriterVisitor.starttime_to_isoformat stime = none := by
  rcases h with h | h <;> subst h
  · exact ⟨rfl, rfl⟩
  · exact ⟨by decide, by decide⟩

/-- Witness for C9 at both absent inputs. -/
theorem starttime_absent_maps_to_none_witness :
    MonitorLogWriterWorker.starttime_to_isoformat none = none ∧
    AzureLogWriterVisitor.starttime_to_isoformat (some "") = none :=
  ⟨(starttime_absent_maps_to_none none (Or.inl rfl)).1,
   (starttime_absent_maps_to_none (some "") (Or.inr rfl)).2⟩

/-! ### C7: `Rebot.main` and the return code -/

/-- C7: `Rebot.main` returns the integer produced by
`ResultWriter(...).write_results` whenever it is non-negative, raises
`DataError('No outputs created.')` exactly when it is negative, and never
returns a negative value. -/
theorem rebot_main_rc (rc : Int) :
    (0 ≤ rc → Rebot.main rc = Except.ok rc) ∧
    (rc < 0 → Rebot.main rc = Except.error (Rebot.DataError.mk "No outputs created.")) ∧
    (∀ v : Int, Rebot.main rc = Except.ok v → 0 ≤ v) := by
  refine ⟨fun h => ?_, fun h => ?_, fun v hv => ?_⟩
  · simp [Rebot.main, Int.not_lt.mpr h]
  · simp [Rebot.main, h]
  · by_cases h : rc < 0
    · simp [Rebot.main, h] at hv
    · simp [Rebot.main, h] at hv
      omega

/-- Witness for C7 at the return codes `2` and `-1`. -/
theorem rebot_main_rc_witness :
    Rebot.main 2 = Except.ok 2 ∧
    Rebot.main (-1) = Except.error (Rebot.DataError.mk "No outputs created.") :=
  ⟨(rebot_main_rc 2).1 (by norm_num), (rebot_main_rc (-1)).2.1 (by norm_num)⟩

/-! ### C10: the suffixed message is dead code -/

/-- C10: the record `visit_test` buffers (and that `end_suite` later attaches
to the posted suite record) carries the raw `test.message`; the local
`": AssertionError"` / `": SkipExecution"`-suffixed string computed at the
top of `visit_test` appears in no emitted record, for failed and skipped
tests included. -/
theorem azure_message_suffix_dead (tcs : List AzureLogWriterVisitor.TestRecord)
    (test : TestCase) (s : Suite) :
    (AzureLogWriterVisitor.visit_test tcs test).2.2.message = test.message ∧
    (AzureLogWriterVisitor.visit_test tcs test).2.1
        = tcs ++ [AzureLogWriterVisitor.testRecordOf test] ∧
    (AzureLogWriterVisitor.testRecordOf test).message = test.message ∧
    (AzureLogWriterVisitor.end_suite tcs s).2.2.1.testcases = tcs :=
  ⟨rfl, rfl, rfl, rfl⟩

/-! ### C4: the request signature -/

/-- C4: `build_signature` is the deterministic function computing
`SharedKey <customer_id>:<sig>`, `<sig>` the base64 encoding of the
HMAC-SHA256 digest, keyed by the base64-decoded shared key, of the canonical
string `METHOD\nCONTENT-LENGTH\nCONTENT-TYPE\nx-ms-date:DATE\nRESOURCE`; at
the fixed §8 inputs it equals the independently computed reference value. -/
theorem build_signature_reference (p : AzureLogPublisher.Publisher)
    (date : String) (content_length : Nat) (method content_type resource : String) :
    AzureLogPublisher.build_signature p date content_length method content_type resource
      = "SharedKey " ++ p.customer_id ++ ":"
        ++ String.mk (Crypto.b64Encode (Crypto.hmacSha256
              (Crypto.b64Decode p.shared_key)
              (Crypto.utf8Encode (method ++ "\n" ++ toString content_length ++ "\n"
                 ++ content_type ++ "\n" ++ ("x-ms-date:" ++ date) ++ "\n" ++ resource)))) ∧
    AzureLogPublisher.build_signature refPublisher "Mon, 02 Jan 2024 03:04:05 GMT" 42
        "POST" "application/json" "/api/logs"
      = "SharedKey test-customer:/qkOlraqM72cD0hsbkTREg+uGqFi5ojPkQ1a452oNss=" :=
  ⟨rfl, by decide⟩

/-! ### C5: the monitor emitter's suite record -/

/-- C5: every suite record the monitor emitter writes on entering a suite
carries exactly the suite's live Statistics counts (`tests`/`failures`/
`skipped`, rendered through `str`), a constant `errors` of `0`, the suite
name, the elapsed time in seconds to three decimals, and the converted start
timestamp (or an absent one). -/
theorem monitor_start_suite_counts (suite : Suite) :
    (MonitorLogWriterWorker.start_suite suite).2.tests
        = toString suite.statistics.total ∧
    (MonitorLogWriterWorker.start_suite suite).2.failures
        = toString suite.statistics.failed ∧
    (MonitorLogWriterWorker.start_suite suite).2.skipped
        = toString suite.statistics.skipped ∧
    (MonitorLogWriterWorker.start_suite suite).2.errors = "0" ∧
    (MonitorLogWriterWorker.start_suite suite).2.name = suite.name ∧
    (MonitorLogWriterWorker.start_suite suite).2.time
        = toString (suite.elapsedtime / 1000) ++ "." ++ zpad3 (suite.elapsedtime % 1000) ∧
    (MonitorLogWriterWorker.start_suite suite).2.timestamp
        = MonitorLogWriterWorker.starttime_to_isoformat suite.starttime ∧
    suite.statistics.total = suite.allTests.length ∧
    suite.statistics.failed = (suite.allTests.filter TestCase.failed).length ∧
    suite.statistics.skipped = (suite.allTests.filter TestCase.skipped).length :=
  ⟨rfl, rfl, rfl, rfl, rfl, rfl, rfl, rfl, rfl, rfl⟩

/-! ### C6: the monitor emitter's testcase record -/

/-- C6: for every test the monitor emitter writes a testcase record with the
parent suite's long name, the test's name and its elapsed seconds; a
`failure {message, type="AssertionError"}` sub-record is written iff the test
failed, and a `skipped {message, type="SkipExecution"}` sub-record iff the
test was skipped. -/
theorem monitor_visit_test_record (test : TestCase) :
    (MonitorLogWriterWorker.visit_test test).2.record.classname = test.parent_longname ∧
    (MonitorLogWriterWorker.visit_test test).2.record.name = test.name ∧
    (MonitorLogWriterWorker.visit_test test).2.record.time
        = MonitorLogWriterWorker.time_as_seconds test.elapsedtime ∧
    ((MonitorLogWriterWorker.visit_test test).2.failure
        = some { message := test.message, type := "AssertionError" } ↔ test.failed = true) ∧
    ((MonitorLogWriterWorker.visit_test test).2.skipped
        = some { message := test.message, type := "SkipExecution" } ↔ test.skipped = true) := by
  obtain ⟨n, p, st, m, e, k⟩ := test
  cases st <;>
    simp [MonitorLogWriterWorker.visit_test, TestCase.failed, TestCase.skipped]

/-! ### Traversal characterization lemmas -/

section AzureTraversal

open AzureLogWriterVisitor

/-- Visiting a test list appends exactly one buffered record per test, in
stored order, and returns the tests unchanged. -/
theorem azure_visitTestList_eq (l : List TestCase) :
    ∀ tcs, visitTestList tcs l = (l, tcs ++ l.map testRecordOf) := by
  induction l with
  | nil => intro tcs; simp [visitTestList]
  | cons t rest ih =>
    intro tcs
    simp [visitTestList, visit_test, testRecordOf, ih]

mutual

/-- Joint characterization of the ingestion emitter's pass over a suite:
the tree is returned unchanged; the buffer grows by one record per test of
the subtree in traversal order (never cleared); exactly one payload is
emitted per suite; every payload is a single-element array; and the payload
emitted on leaving the suite itself (the last one) attaches the whole
accumulated buffer. -/
theorem azure_visitSuite_char (tcs : List TestRecord) (s : Suite) :
    (visitSuite tcs s).1 = s ∧
    (visitSuite tcs s).2.1 = tcs ++ (traversalTests s).map testRecordOf ∧
    (visitSuite tcs s).2.2.length = countSuites s ∧
    (∀ p ∈ (visitSuite tcs s).2.2, p.length = 1) ∧
    (visitSuite tcs s).2.2.getLast?
        = some [endRecord s (tcs ++ (traversalTests s).map testRecordOf)] := by
  obtain ⟨name, suites, tests, st, et⟩ := s
  obtain ⟨h1, h2, h3, h4⟩ := azure_visitSuiteList_char tcs suites
  have htests := azure_visitTestList_eq tests
      (tcs ++ (traversalTestsList suites).map testRecordOf)
  refine ⟨?_, ?_, ?_, ?_, ?_⟩
  · simp [visitSuite, start_suite, end_suite, Suite.name, Suite.starttime,
          Suite.elapsedtime, h1, h2, htests]
  · simp [visitSuite, start_suite, end_suite, Suite.name, Suite.starttime,
          Suite.elapsedtime, h1, h2, htests, traversalTests, List.map_append]
  · simp [visitSuite, start_suite, h2, htests, countSuites, Nat.add_comm, h3]
  · intro p hp
    simp only [visitSuite] at hp
    rcases List.mem_append.mp hp with hmem | hmem
    · exact h4 p hmem
    · simp only [List.mem_singleton] at hmem
      subst hmem
      simp [end_suite]
  · simp [visitSuite, start_suite, end_suite, endRecord, Suite.name,
          Suite.starttime, Suite.elapsedtime, h1, h2, htests, traversalTests,
          List.map_append]

theorem azure_visitSuiteList_char (tcs : List TestRecord) (l : List Suite) :
    (visitSuiteList tcs l).1 = l ∧
    (visitSuiteList tcs l).2.1 = tcs ++ (traversalTestsList l).map testRecordOf ∧
    (visitSuiteList tcs l).2.2.length = countSuitesList l ∧
    (∀ p ∈ (visitSuiteList tcs l).2.2, p.length = 1) := by
  match l with
  | [] =>
    refine ⟨rfl, by simp [visitSuiteList, traversalTestsList], by rfl, ?_⟩
    intro p hp
    simp [visitSuiteList] at hp
  | s :: rest =>
    obtain ⟨g1, g2, g3, g4, _⟩ := azure_visitSuite_char tcs s
    obtain ⟨f1, f2, f3, f4⟩ := azure_visitSuiteList_char ((visitSuite tcs s).2.1) rest
    rw [g2] at f1 f2 f3 f4
    refine ⟨?_, ?_, ?_, ?_⟩
    · simp [visitSuiteList, g1, g2, f1]
    · simp [visitSuiteList, f2, g2, traversalTestsList, List.map_append]
    · simp [visitSuiteList, g2, g3, f3, countSuitesList]
    · intro p hp
      simp only [visitSuiteList, g2] at hp
      rcases List.mem_append.mp hp with hmem | hmem
      · exact g4 p hmem
      · exact f4 p hmem

end

end AzureTraversal

section MonitorTraversal

open MonitorLogWriterWorker

/-- The monitor pass over a test list returns the tests unchanged. -/
theorem monitor_visitTestList_fst (l : List TestCase) :
    (visitTestList l).1 = l := by
  induction l with
  | nil => rfl
  | cons t rest ih => simp [visitTestList, visit_test, ih]

mutual

/-- The monitor pass over a suite returns the tree unchanged. -/
theorem monitor_visitSuite_fst (s : Suite) :
    (visitSuite s).1 = s := by
  obtain ⟨name, suites, tests, st, et⟩ := s
  have h := monitor_visitSuiteList_fst suites
  simp [visitSuite, start_suite, end_suite, Suite.name, Suite.starttime,
        Suite.elapsedtime, h, monitor_visitTestList_fst]

theorem monitor_visitSuiteList_fst (l : List Suite) :
    (visitSuiteList l).1 = l := by
  match l with
  | [] => rfl
  | s :: rest =>
    have h1 := monitor_visitSuite_fst s
    have h2 := monitor_visitSuiteList_fst rest
    simp [visitSuiteList, h1, h2]

end

end MonitorTraversal

/-! ### C8: emission never mutates the tree -/

/-- C8: every visitor hook of both emitters returns the visited node with
all fields unchanged, and a full emission pass of either emitter returns the
whole tree unchanged — independent emitters can traverse the same finalized
tree sequentially without interference. -/
theorem emitters_leave_tree_unchanged (s : Suite) (t : TestCase) (k : Keyword)
    (tcs : List AzureLogWriterVisitor.TestRecord) :
    (MonitorLogWriterWorker.start_suite s).1 = s ∧
    MonitorLogWriterWorker.end_suite s = s ∧
    (MonitorLogWriterWorker.visit_test t).1 = t ∧
    MonitorLogWriterWorker.visit_keyword k = k ∧
    (MonitorLogWriterWorker.visitSuite s).1 = s ∧
    AzureLogWriterVisitor.start_suite s = s ∧
    (AzureLogWriterVisitor.end_suite tcs s).1 = s ∧
    (AzureLogWriterVisitor.visit_test tcs t).1 = t ∧
    AzureLogWriterVisitor.visit_keyword k = k ∧
    (AzureLogWriterVisitor.visitSuite tcs s).1 = s :=
  ⟨rfl, rfl, rfl, rfl, monitor_visitSuite_fst s, rfl, rfl, rfl, rfl,
   (azure_visitSuite_char tcs s).1⟩

/-! ### C1: one POST per suite, but an accumulating buffer -/

/-- C1 — counterexample: traversing `exRoot` (children `A` with test `t1`,
`B` with test `t2`) from an empty buffer, the payload posted on leaving suite
`B` carries two testcase records — `t1`'s record from suite `A` included —
although suite `B` holds exactly one Test: `self.testcases` is never cleared
between suites. -/
theorem azure_buffer_leak_counterexample :
    (AzureLogWriterVisitor.visitSuite [] exRoot).2.2
      = [[AzureLogWriterVisitor.endRecord exSuiteA [AzureLogWriterVisitor.testRecordOf exTestA]],
         [AzureLogWriterVisitor.endRecord exSuiteB [AzureLogWriterVisitor.testRecordOf exTestA,
             AzureLogWriterVisitor.testRecordOf exTestB]],
         [AzureLogWriterVisitor.endRecord exRoot [AzureLogWriterVisitor.testRecordOf exTestA,
             AzureLogWriterVisitor.testRecordOf exTestB]]] ∧
    exSuiteB.allTests = [exTestB] ∧
    (AzureLogWriterVisitor.endRecord exSuiteB [AzureLogWriterVisitor.testRecordOf exTestA,
        AzureLogWriterVisitor.testRecordOf exTestB]).testcases.length = 2 ∧
    (AzureLogWriterVisitor.testRecordOf exTestA).classname = "Root.A" ∧
    exTestB.parent_longname = "Root.B" := by
  refine ⟨?_, ?_, rfl, rfl, rfl⟩
  · simp [exRoot, exSuiteA, exSuiteB, AzureLogWriterVisitor.visitSuite,
          AzureLogWriterVisitor.visitSuiteList, AzureLogWriterVisitor.visitTestList,
          AzureLogWriterVisitor.visit_test, AzureLogWriterVisitor.start_suite,
          AzureLogWriterVisitor.end_suite, AzureLogWriterVisitor.endRecord,
          AzureLogWriterVisitor.testRecordOf, AzureLogWriterVisitor.get_stats,
          Suite.name, Suite.starttime, Suite.elapsedtime]
  · simp [exSuiteB, Suite.allTests, allTestsList]

/-- C1 — amended: on leaving each suite the ingestion emitter makes exactly
one POST (one payload per suite of the subtree), every payload is a
single-element JSON array around the suite record, and the record posted for
the suite itself attaches the entire accumulated buffer: one record
(classname, name, time, message) per Test visited so far in the whole pass —
the buffer also contains the records of previously visited suites' Tests,
because `self.testcases` is never cleared. -/
theorem azure_one_post_per_suite (tcs : List AzureLogWriterVisitor.TestRecord) (s : Suite) :
    (AzureLogWriterVisitor.visitSuite tcs s).2.2.length = countSuites s ∧
    (∀ p ∈ (AzureLogWriterVisitor.visitSuite tcs s).2.2, p.length = 1) ∧
    (AzureLogWriterVisitor.visitSuite tcs s).2.2.getLast?
        = some [AzureLogWriterVisitor.endRecord s
            (tcs ++ (traversalTests s).map AzureLogWriterVisitor.testRecordOf)] :=
  ⟨(azure_visitSuite_char tcs s).2.2.1,
   (azure_visitSuite_char tcs s).2.2.2.1,
   (azure_visitSuite_char tcs s).2.2.2.2⟩

/-- Witness for C1's amended theorem on the single suite `B` from an empty
buffer: one POST, a single-element payload, carrying `t2`'s record. -/
theorem azure_one_post_per_suite_witness :
    (AzureLogWriterVisitor.visitSuite [] exSuiteB).2.2.length = countSuites exSuiteB ∧
    ([AzureLogWriterVisitor.endRecord exSuiteB [AzureLogWriterVisitor.testRecordOf exTestB]] :
        AzureLogWriterVisitor.Payload).length = 1 ∧
    (AzureLogWriterVisitor.visitSuite [] exSuiteB).2.2.getLast?
        = some [AzureLogWriterVisitor.endRecord exSuiteB
            ([] ++ (traversalTests exSuiteB).map AzureLogWriterVisitor.testRecordOf)] := by
  have hmem : [AzureLogWriterVisitor.endRecord exSuiteB
      [AzureLogWriterVisitor.testRecordOf exTestB]]
      ∈ (AzureLogWriterVisitor.visitSuite [] exSuiteB).2.2 := by
    simp [exSuiteB, AzureLogWriterVisitor.visitSuite,
          AzureLogWriterVisitor.visitSuiteList, AzureLogWriterVisitor.visitTestList,
          AzureLogWriterVisitor.visit_test, AzureLogWriterVisitor.start_suite,
          AzureLogWriterVisitor.end_suite, AzureLogWriterVisitor.endRecord,
          AzureLogWriterVisitor.testRecordOf, AzureLogWriterVisitor.get_stats,
          Suite.name, Suite.starttime, Suite.elapsedtime]
  exact ⟨(azure_one_post_per_suite [] exSuiteB).1,
         (azure_one_post_per_suite [] exSuiteB).2.1 _ hmem,
         (azure_one_post_per_suite [] exSuiteB).2.2⟩

/-! ### C3: response handling of the remote POST -/

/-- C3 — counterexample: a transport failure in `requests.post` propagates
out of `post_data` (there is no `try`/`except` in the source), so `post_data`
does not return normally for every outcome; the propagating exception aborts
the remaining POSTs of the pass. -/
theorem post_data_transport_counterexample :
    AzureLogPublisher.post_data (.raised "ConnectionError")
        = Except.error "ConnectionError" ∧
    AzureLogPublisher.post_all (fun _ => .raised "ConnectionError") 0
        ([[], []] : List AzureLogWriterVisitor.Payload)
        = Except.error "ConnectionError" :=
  ⟨rfl, rfl⟩

/-- C3 — amended: for every HTTP response received, `post_data` returns
normally: a 2xx status (`200 <= status <= 299`) is logged as accepted, any
other status is logged at error level with status code, reason phrase and
body; when every POST receives a response (2xx or not), every buffered
payload of the pass is posted and produces exactly one log line. -/
theorem post_data_response_contract (r : AzureLogPublisher.HttpResponse) :
    (200 ≤ r.status_code ∧ r.status_code ≤ 299 →
      AzureLogPublisher.post_data (.response r)
        = Except.ok (.info "Accepted")) ∧
    (¬(200 ≤ r.status_code ∧ r.status_code ≤ 299) →
      AzureLogPublisher.post_data (.response r)
        = Except.ok (.error ("Response code: " ++ toString r.status_code ++ " "
            ++ r.reason ++ " " ++ r.text))) ∧
    (∀ outcomes : Nat → AzureLogPublisher.TransportOutcome,
      (∀ n, ∃ resp, outcomes n = .response resp) →
      ∀ (i : Nat) (ps : List AzureLogWriterVisitor.Payload),
        ∃ lines, AzureLogPublisher.post_all outcomes i ps = Except.ok lines
          ∧ lines.length = ps.length) := by
  refine ⟨fun h => ?_, fun h => ?_, fun outcomes hresp i ps => ?_⟩
  · simp [AzureLogPublisher.post_data, h]
  · simp [AzureLogPublisher.post_data, h]
  · induction ps generalizing i with
    | nil => exact ⟨[], rfl, rfl⟩
    | cons p rest ih =>
      obtain ⟨resp, hr⟩ := hresp i
      obtain ⟨lines, hl, hlen⟩ := ih (i + 1)
      have hok : ∃ line, AzureLogPublisher.post_data (outcomes i) = Except.ok line := by
        rw [hr]
        by_cases h2 : 200 ≤ resp.status_code ∧ resp.status_code ≤ 299
        · exact ⟨.info "Accepted", by simp [AzureLogPublisher.post_data, h2]⟩
        · exact ⟨.error ("Response code: " ++ toString resp.status_code ++ " "
                  ++ resp.reason ++ " " ++ resp.text),
                 by simp [AzureLogPublisher.post_data, h2]⟩
      obtain ⟨line, hline⟩ := hok
      refine ⟨line :: lines, ?_, by simp [hlen]⟩
      simp [AzureLogPublisher.post_all, hline, hl]

/-- Witness for C3's amended theorem: a 200 response is accepted, a 500
response is logged and returned normally, and with every POST answered 500
both payloads of a two-suite pass are still posted. -/
theorem post_data_response_contract_witness :
    AzureLogPublisher.post_data (.response resp200) = Except.ok (.info "Accepted") ∧
    AzureLogPublisher.post_data (.response resp500)
        = Except.ok (.error ("Response code: " ++ toString resp500.status_code ++ " "
            ++ resp500.reason ++ " " ++ resp500.text)) ∧
    ∃ lines, AzureLogPublisher.post_all (fun _ => .response resp500) 0
        ([[], []] : List AzureLogWriterVisitor.Payload)
        = Except.ok lines ∧ lines.length = 2 :=
  ⟨(post_data_response_contract resp200).1 (by decide),
   (post_data_response_contract resp500).2.1 (by decide),
   (post_data_response_contract resp200).2.2 (fun _ => .response resp500)
     (fun _ => ⟨resp500, rfl⟩) 0 [[], []]⟩

/-- Witness for C6 at a failed and at a skipped test. -/
theorem monitor_visit_test_record_witness :
    (MonitorLogWriterWorker.visit_test exTestB).2.failure
        = some { message := "boom", type := "AssertionError" } ∧
    (MonitorLogWriterWorker.visit_test exTestC).2.skipped
        = some { message := "skip reason", type := "SkipExecution" } :=
  ⟨(monitor_visit_test_record exTestB).2.2.2.1.mpr (by decide),
   (monitor_visit_test_record exTestC).2.2.2.2.mpr (by decide)⟩
